import Mathlib

/- Shallow embedding of src/elo_predictor.py: the rating engine
   (expected_score, update_elo), the tolerant row normalizer
   (row_to_result with its helpers), the rating builder (build_elos)
   and the probability model (predict_matchup). Python floats are
   modelled as real numbers, pandas cells as an explicit Cell type,
   and the mutable elos dict as an association list threaded
   explicitly through the operations that touch it. -/

namespace EloPredictor

/-- One cell of a tabular record, as the normalizer sees it: a string
value (team names, non-numeric score cells), an integer-parseable
numeric value, or a missing value (NaN). pd.to_numeric with coercion
turns exactly the numeric cells into numbers. -/
inductive Cell where
  | str : String → Cell
  | num : Int → Cell
  | empty : Cell
deriving DecidableEq

/-- One raw tabular row: an association of column names to cells. -/
abbrev Row := List (String × Cell)

def START_ELO : ℝ := 1500

def K : ℝ := 20

/-- Fixed home-field bonus (~2 NFL points). -/
def HOME_FIELD_BONUS : ℝ := 65

/-- expected_score of elo_predictor.py: logistic expectation for side a. -/
noncomputable def expected_score (elo_a elo_b : ℝ) : ℝ :=
  1 / (1 + (10 : ℝ) ^ ((elo_b - elo_a) / 400))

/-- update_elo of elo_predictor.py: one symmetric K-factor update. -/
noncomputable def update_elo (elo_a elo_b : ℝ) (score_a score_b : ℤ) : ℝ × ℝ :=
  let exp_a := expected_score elo_a elo_b
  let result_a : ℝ := if score_a > score_b then 1 else if score_a < score_b then 0 else 0.5
  let result_b : ℝ := 1 - result_a
  (elo_a + K * (result_a - exp_a), elo_b + K * (result_b - (1 - exp_a)))

/-- Python str.lower(), over the character list. -/
def lowerStr (s : String) : String :=
  String.mk (s.data.map Char.toLower)

/-- Python str.strip(), over the character list. -/
def stripStr (s : String) : String :=
  String.mk (((s.data.dropWhile Char.isWhitespace).reverse.dropWhile
    Char.isWhitespace).reverse)

/-- Column lookup through the colmap of build_elos: case-insensitive and
whitespace-stripped on the table's column names; on a lowercase collision
the later column wins, as in the dict comprehension building colmap. -/
def colCell (row : Row) (name : String) : Option Cell :=
  (row.reverse.find? (fun p => lowerStr (stripStr p.1) == lowerStr name)).map Prod.snd

/-- The has(...) helper of build_elos, for a single column name. -/
def hasCol (row : Row) (name : String) : Bool :=
  (colCell row name).isSome

/-- as_int of build_elos: pd.to_numeric with coercion, then int conversion;
non-numeric and missing cells come back as None. -/
def as_int : Cell → Option ℤ
  | Cell.num n => some n
  | _ => none

/-- The fixed priority list of recognized score-column alias pairs of
row_to_result, case A. -/
def scorePairs : List (String × String) :=
  [("Points_Winner", "Points_Loser"), ("PtsW", "PtsL"), ("Pts", "Pts.1")]

/-- The score loop of row_to_result, case A: the first alias pair whose two
columns are both present and whose two cells both parse as integers; a pair
whose columns are present but unparseable falls through to the next pair. -/
def firstScores (row : Row) : List (String × String) → Option (ℤ × ℤ)
  | [] => none
  | (wcol, lcol) :: rest =>
    if hasCol row wcol && hasCol row lcol then
      match as_int ((colCell row wcol).getD Cell.empty),
            as_int ((colCell row lcol).getD Cell.empty) with
      | some sw, some sl => some (sw, sl)
      | _, _ => firstScores row rest
    else firstScores row rest

/-- hs of row_to_result, case B: None when the home_score column is absent. -/
def homeScoreOf (row : Row) : Option ℤ :=
  if hasCol row "home_score" then as_int ((colCell row "home_score").getD Cell.empty)
  else none

/-- as_ of row_to_result, case B: None when the away_score column is absent. -/
def awayScoreOf (row : Row) : Option ℤ :=
  if hasCol row "away_score" then as_int ((colCell row "away_score").getD Cell.empty)
  else none

/-- row_to_result of build_elos: normalize one row to a canonical
(winner, loser, winner_score, loser_score) outcome, or None. -/
def row_to_result (row : Row) : Option (Cell × Cell × ℤ × ℤ) :=
  if hasCol row "winner/tie" && hasCol row "loser/tie" then
    let winner := (colCell row "winner/tie").getD Cell.empty
    let loser := (colCell row "loser/tie").getD Cell.empty
    match firstScores row scorePairs with
    | some (sw, sl) => some (winner, loser, sw, sl)
    | none => some (winner, loser, 1, 0)
  else if hasCol row "home_team" && hasCol row "away_team" then
    let home := (colCell row "home_team").getD Cell.empty
    let away := (colCell row "away_team").getD Cell.empty
    match homeScoreOf row, awayScoreOf row with
    | some hs, some as_ =>
      if hs > as_ then some (home, away, hs, as_)
      else if as_ > hs then some (away, home, as_, hs)
      else some (home, away, hs, as_)
    | _, _ => none
  else none

/-- The elos dict: insertion-ordered association list with unique keys. -/
abbrev Elos := List (Cell × ℝ)

/-- Python dict read d.get(k) / d[k]. -/
def lookup : Elos → Cell → Option ℝ
  | [], _ => none
  | (k, v) :: rest, key => if k = key then some v else lookup rest key

/-- Python dict write d[k] = v: replace the entry in place, else append. -/
def setv : Elos → Cell → ℝ → Elos
  | [], key, v => [(key, v)]
  | (k, w) :: rest, key, v =>
    if k = key then (key, v) :: rest else (k, w) :: setv rest key v

/-- Python dict.setdefault(k, d). -/
def setdefault (e : Elos) (key : Cell) (d : ℝ) : Elos :=
  if (lookup e key).isSome then e else e ++ [(key, d)]

/-- One iteration of the loop of build_elos: normalize the row, skip it when
normalization fails, otherwise default both teams to START_ELO and apply
update_elo, writing the winner's rating first and then the loser's. The
getD defaults on the reads are unreachable: both keys are present after the
two setdefault calls. -/
noncomputable def buildStep (elos : Elos) (row : Row) : Elos :=
  match row_to_result row with
  | none => elos
  | some (winner, loser, sw, sl) =>
    let e1 := setdefault elos winner START_ELO
    let e2 := setdefault e1 loser START_ELO
    let p := update_elo ((lookup e2 winner).getD START_ELO)
                        ((lookup e2 loser).getD START_ELO) sw sl
    setv (setv e2 winner p.1) loser p.2

/-- build_elos of elo_predictor.py, applied to an already-materialized list
of rows: fold the rows through the normalizer and the engine. -/
noncomputable def build_elos (rows : List Row) : Elos :=
  rows.foldl buildStep []

/-- One team's season statistics row, as consumed by predict_matchup. -/
structure SeasonStat where
  points_for : ℝ
  points_against : ℝ
  turnovers : ℝ
  yards : ℝ

/-- The derived Point_Diff column of get_team_stats. -/
def SeasonStat.point_diff (s : SeasonStat) : ℝ :=
  s.points_for - s.points_against

/-- The season-statistics table: stats.loc[team] when team is in the index. -/
abbrev Stats := Cell → Option SeasonStat

/-- The home-field branch of predict_matchup: effective ratings after the
if / elif bonus application. -/
noncomputable def effective_elos (team_home team_away : Cell) (elos : Elos)
    (home_team : Option Cell) : ℝ × ℝ :=
  let elo_home := (lookup elos team_home).getD START_ELO
  let elo_away := (lookup elos team_away).getD START_ELO
  if home_team = some team_home then (elo_home + HOME_FIELD_BONUS, elo_away)
  else if home_team = some team_away then (elo_home, elo_away + HOME_FIELD_BONUS)
  else (elo_home, elo_away)

/-- elo_prob_home of predict_matchup. -/
noncomputable def elo_prob_home (team_home team_away : Cell) (elos : Elos)
    (home_team : Option Cell) : ℝ :=
  expected_score (effective_elos team_home team_away elos home_team).1
                 (effective_elos team_home team_away elos home_team).2

/-- point_diff_factor of predict_matchup: 0.5 unless both stat rows exist. -/
noncomputable def point_diff_factor (team_home team_away : Cell) (stats : Stats) : ℝ :=
  match stats team_home, stats team_away with
  | some s_home, some s_away => (s_home.point_diff - s_away.point_diff) / 200 + 0.5
  | _, _ => 0.5

/-- turnover_factor of predict_matchup: fewer turnovers are better, hence the
negated counts; 0.5 unless both stat rows exist. -/
noncomputable def turnover_factor (team_home team_away : Cell) (stats : Stats) : ℝ :=
  match stats team_home, stats team_away with
  | some s_home, some s_away => ((-s_home.turnovers) - (-s_away.turnovers)) / 50 + 0.5
  | _, _ => 0.5

/-- np.clip(x, lo, hi). -/
noncomputable def clip (x lo hi : ℝ) : ℝ := min hi (max lo x)

/-- The blended value of predict_matchup before clipping. -/
noncomputable def pre_clip (team_home team_away : Cell) (elos : Elos) (stats : Stats)
    (home_team : Option Cell) : ℝ :=
  0.6 * elo_prob_home team_home team_away elos home_team
    + 0.25 * point_diff_factor team_home team_away stats
    + 0.15 * turnover_factor team_home team_away stats

/-- The prediction record returned by predict_matchup. -/
structure MatchupPrediction where
  team_home : Cell
  team_away : Cell
  elo_prob_home : ℝ
  final_prob : ℝ

/-- predict_matchup of elo_predictor.py. The elos dict is passed in and
handed back unchanged: the body only reads it (dict.get), never writes. -/
noncomputable def predict_matchup (team_home team_away : Cell) (elos : Elos)
    (stats : Stats) (home_team : Option Cell) : MatchupPrediction × Elos :=
  (⟨team_home, team_away,
    elo_prob_home team_home team_away elos home_team,
    clip (pre_clip team_home team_away elos stats home_team) 0 1⟩, elos)

/-- Claim-side final probability, spelled from the specification's words:
clip(0.6 × rating_component + 0.25 × point_diff_component
+ 0.15 × turnover_component, 0, 1), the rating component being the logistic
expected score over the effective ratings (stored rating plus the 65-point
bonus on the designated home side, the home slot checked first), the
point-differential component (home_point_diff − away_point_diff)/200 + 0.5
and the turnover component (away_turnovers − home_turnovers)/50 + 0.5, each
defaulting to exactly 0.5 when either stat row is unavailable, with no
renormalization of the weights. -/
noncomputable def spec_final_probability (th ta : Cell) (elos : Elos) (stats : Stats)
    (home : Option Cell) : ℝ :=
  let r_home := (lookup elos th).getD 1500
  let r_away := (lookup elos ta).getD 1500
  let eff_home := if home = some th then r_home + 65 else r_home
  let eff_away := if home = some ta ∧ ¬ (home = some th) then r_away + 65 else r_away
  let rating_component := 1 / (1 + (10 : ℝ) ^ ((eff_away - eff_home) / 400))
  let point_diff_component :=
    match stats th, stats ta with
    | some sh, some sa =>
        ((sh.points_for - sh.points_against) - (sa.points_for - sa.points_against)) / 200 + 0.5
    | _, _ => (0.5 : ℝ)
  let turnover_component :=
    match stats th, stats ta with
    | some sh, some sa => (sa.turnovers - sh.turnovers) / 50 + 0.5
    | _, _ => (0.5 : ℝ)
  min 1 (max 0
    (0.6 * rating_component + 0.25 * point_diff_component + 0.15 * turnover_component))

/-- Claim-side actual result of the engine, from the specification's words. -/
noncomputable def spec_result_a (score_a score_b : ℕ) : ℝ :=
  if score_a > score_b then 1 else if score_a < score_b then 0 else 0.5

/-- Total rating mass held in the store. -/
def totalMass (e : Elos) : ℝ := (e.map Prod.snd).sum

/-- An empty season-statistics table. -/
def noStats : Stats := fun _ => none

/-- A stat table with an extreme point differential for team A. -/
noncomputable def satStats : Stats := fun c =>
  if c = Cell.str "A" then some ⟨10000, 0, 0, 0⟩
  else if c = Cell.str "B" then some ⟨0, 0, 0, 0⟩
  else none

/-- A Winner/Loser-family row with no score columns at all. -/
def winRow : Row := [("Winner/tie", Cell.str "A"), ("Loser/tie", Cell.str "B")]

/-- A Winner/Loser-family row whose only recognized score pair is present
but unparseable. -/
def badScoreRow : Row :=
  [("Winner/tie", Cell.str "A"), ("Loser/tie", Cell.str "B"),
   ("Pts", Cell.str "x"), ("Pts.1", Cell.empty)]

/-- A Home/Away-family row whose home score is unparseable and whose away
score column is absent. -/
def badHomeAwayRow : Row :=
  [("home_team", Cell.str "H"), ("away_team", Cell.str "V"),
   ("home_score", Cell.str "ab")]

/-- A degenerate Winner/Loser-family row naming the same team on both sides. -/
def selfRow : Row := [("Winner/tie", Cell.str "A"), ("Loser/tie", Cell.str "A")]

/- ------------------------------------------------------------------ -/
/- Helper lemmas about the engine.                                     -/
/- ------------------------------------------------------------------ -/

theorem expected_score_self (r : ℝ) : expected_score r r = 0.5 := by
  unfold expected_score
  rw [sub_self, zero_div, Real.rpow_zero]
  norm_num

theorem expected_score_pos (a b : ℝ) : 0 < expected_score a b := by
  unfold expected_score
  have hp : (0 : ℝ) < (10 : ℝ) ^ ((b - a) / 400) :=
    Real.rpow_pos_of_pos (by norm_num) _
  positivity

theorem expected_score_lt_one (a b : ℝ) : expected_score a b < 1 := by
  unfold expected_score
  have hp : (0 : ℝ) < (10 : ℝ) ^ ((b - a) / 400) :=
    Real.rpow_pos_of_pos (by norm_num) _
  rw [div_lt_one (by linarith)]
  linarith

theorem expected_score_lt_left {a a' : ℝ} (b : ℝ) (h : a < a') :
    expected_score a b < expected_score a' b := by
  unfold expected_score
  have hx : (b - a') / 400 < (b - a) / 400 := by linarith
  have hpow : (10 : ℝ) ^ ((b - a') / 400) < (10 : ℝ) ^ ((b - a) / 400) :=
    (Real.rpow_lt_rpow_left_iff (by norm_num : (1:ℝ) < 10)).mpr hx
  have hd : (0 : ℝ) < 1 + (10 : ℝ) ^ ((b - a') / 400) := by
    have := Real.rpow_pos_of_pos (show (0:ℝ) < 10 by norm_num) ((b - a') / 400)
    linarith
  exact one_div_lt_one_div_of_lt hd (by linarith)

theorem update_elo_sum (a b : ℝ) (sa sb : ℤ) :
    (update_elo a b sa sb).1 + (update_elo a b sa sb).2 = a + b := by
  simp only [update_elo]
  ring

theorem update_elo_win10 :
    update_elo START_ELO START_ELO 1 0 = (START_ELO + 10, START_ELO - 10) := by
  simp only [update_elo, K, expected_score_self, START_ELO]
  norm_num

/- ------------------------------------------------------------------ -/
/- Helper lemmas about the store.                                      -/
/- ------------------------------------------------------------------ -/

theorem totalMass_nil : totalMass [] = 0 := rfl

theorem totalMass_cons (p : Cell × ℝ) (rest : Elos) :
    totalMass (p :: rest) = p.2 + totalMass rest := by
  simp [totalMass]

theorem totalMass_append (e l : Elos) :
    totalMass (e ++ l) = totalMass e + totalMass l := by
  simp [totalMass]

theorem lookup_setv_self (e : Elos) (k : Cell) (v : ℝ) :
    lookup (setv e k v) k = some v := by
  induction e with
  | nil => simp [setv, lookup]
  | cons p rest ih =>
    obtain ⟨k', w⟩ := p
    by_cases h : k' = k
    · simp [setv, h, lookup]
    · simp [setv, h, lookup, ih]

theorem lookup_setv_ne (e : Elos) (k key : Cell) (v : ℝ) (h : k ≠ key) :
    lookup (setv e key v) k = lookup e k := by
  have hks : ¬ (key = k) := fun hh => h hh.symm
  induction e with
  | nil => simp [setv, lookup, hks]
  | cons p rest ih =>
    obtain ⟨k', w⟩ := p
    by_cases hk : k' = key
    · subst hk
      simp [setv, lookup, hks]
    · simp [setv, hk, lookup, ih]

theorem isSome_lookup_setv (e : Elos) (k key : Cell) (v : ℝ)
    (h : (lookup e k).isSome) : (lookup (setv e key v) k).isSome := by
  by_cases hk : k = key
  · subst hk
    rw [lookup_setv_self]
    rfl
  · rw [lookup_setv_ne _ _ _ _ hk]
    exact h

theorem length_setv_of_isSome (e : Elos) (k : Cell) (v : ℝ)
    (h : (lookup e k).isSome) : (setv e k v).length = e.length := by
  induction e with
  | nil => simp [lookup] at h
  | cons p rest ih =>
    obtain ⟨k', w⟩ := p
    by_cases hk : k' = k
    · simp [setv, hk]
    · simp only [lookup, hk, if_false, ite_false] at h
      simp [setv, hk, ih h]

theorem totalMass_setv_of_lookup (e : Elos) (k : Cell) (v w : ℝ)
    (h : lookup e k = some w) :
    totalMass (setv e k v) = totalMass e - w + v := by
  induction e with
  | nil => simp [lookup] at h
  | cons p rest ih =>
    obtain ⟨k', u⟩ := p
    by_cases hk : k' = k
    · simp only [lookup, hk, if_true, ite_true, Option.some.injEq] at h
      subst h
      simp only [setv, hk, ite_true, totalMass_cons]
      ring
    · simp only [lookup, hk, if_false, ite_false] at h
      simp only [setv, hk, ite_false, totalMass_cons, ih h]
      ring

theorem isSome_lookup_append (e l : Elos) (k : Cell)
    (h : (lookup e k).isSome) : (lookup (e ++ l) k).isSome := by
  induction e with
  | nil => simp [lookup] at h
  | cons p rest ih =>
    obtain ⟨k', w⟩ := p
    by_cases hk : k' = k
    · simp [lookup, hk]
    · simp only [lookup, hk, if_false, ite_false] at h
      simp [lookup, hk, ih h]

theorem lookup_append_single_none (e : Elos) (k : Cell) (d : ℝ)
    (h : lookup e k = none) : lookup (e ++ [(k, d)]) k = some d := by
  induction e with
  | nil => simp [lookup]
  | cons p rest ih =>
    obtain ⟨k', w⟩ := p
    by_cases hk : k' = k
    · simp [lookup, hk] at h
    · simp only [lookup, hk, if_false, ite_false] at h
      simp [lookup, hk, ih h]

theorem isSome_lookup_setdefault_self (e : Elos) (k : Cell) (d : ℝ) :
    (lookup (setdefault e k d) k).isSome := by
  unfold setdefault
  by_cases h : (lookup e k).isSome
  · rw [if_pos h]
    exact h
  · rw [if_neg h]
    rw [lookup_append_single_none e k d (Option.not_isSome_iff_eq_none.mp h)]
    rfl

theorem isSome_lookup_setdefault (e : Elos) (k key : Cell) (d : ℝ)
    (h : (lookup e k).isSome) : (lookup (setdefault e key d) k).isSome := by
  unfold setdefault
  by_cases hk : (lookup e key).isSome
  · rw [if_pos hk]
    exact h
  · rw [if_neg hk]
    exact isSome_lookup_append _ _ _ h

theorem setdefault_mass (e : Elos) (k : Cell) (hInv : totalMass e = 1500 * e.length) :
    totalMass (setdefault e k START_ELO) = 1500 * (setdefault e k START_ELO).length := by
  unfold setdefault
  by_cases h : (lookup e k).isSome
  · rw [if_pos h]
    exact hInv
  · rw [if_neg h, totalMass_append, totalMass_cons, totalMass_nil]
    simp only [List.length_append, List.length_cons, List.length_nil, START_ELO]
    push_cast
    rw [hInv]
    ring

/- ------------------------------------------------------------------ -/
/- Claim theorems.                                                     -/
/- ------------------------------------------------------------------ -/

/-- Claim C1: for every pair of team identifiers, rating store, season-stat table
and optional designated home team, predict_matchup returns final probability
equal to clip(0.6 × rating_component + 0.25 × point_diff_component
+ 0.15 × turnover_component, 0, 1), with the components as the specification
states them and exactly 0.5 defaults when either stat row is unavailable,
with no renormalization of the weights. -/
theorem C1_predict_matchup_final_formula (th ta : Cell) (elos : Elos) (stats : Stats)
    (home : Option Cell) :
    (predict_matchup th ta elos stats home).1.final_prob =
      spec_final_probability th ta elos stats home := by
  simp only [predict_matchup, spec_final_probability, clip, pre_clip, elo_prob_home,
    effective_elos, point_diff_factor, turnover_factor, expected_score,
    SeasonStat.point_diff, START_ELO, HOME_FIELD_BONUS]
  by_cases h1 : home = some th
  · cases hs : stats th <;> cases ha : stats ta <;>
      simp only [h1, hs, ha, if_true, if_false, eq_self_iff_true,
        not_true, not_false_iff, and_true, and_false, true_and, false_and,
        ite_true, ite_false] <;>
      ring_nf
  · by_cases h2 : home = some ta
    · have h1' : ¬ (some ta = some th) := by rw [← h2]; exact h1
      cases hs : stats th <;> cases ha : stats ta <;>
        simp only [h1, h2, h1', hs, ha, if_true, if_false, eq_self_iff_true,
          not_true, not_false_iff, and_true, and_false, true_and, false_and,
          ite_true, ite_false] <;>
        ring_nf
    · cases hs : stats th <;> cases ha : stats ta <;>
        simp only [h1, h2, hs, ha, if_true, if_false, eq_self_iff_true,
          not_true, not_false_iff, and_true, and_false, true_and, false_and,
          ite_true, ite_false] <;>
        ring_nf

/-- Claim C2: for every pair of current ratings and every pair of non-negative
integer scores, update_elo returns
(r_a + 20 × (result_a − E_a), r_b + 20 × ((1 − result_a) − (1 − E_a))) with
E_a = 1/(1 + 10^((r_b − r_a)/400)) and result_a as the claim states it. -/
theorem C2_update_elo_formula (ra rb : ℝ) (sa sb : ℕ) :
    update_elo ra rb (sa : ℤ) (sb : ℤ) =
      (ra + 20 * (spec_result_a sa sb - 1 / (1 + (10 : ℝ) ^ ((rb - ra) / 400))),
       rb + 20 * ((1 - spec_result_a sa sb)
         - (1 - 1 / (1 + (10 : ℝ) ^ ((rb - ra) / 400))))) := by
  rcases Nat.lt_trichotomy sa sb with h | h | h
  · have hi : (sa : ℤ) < (sb : ℤ) := by exact_mod_cast h
    have hng : ¬ (sb < sa) := by omega
    have hngi : ¬ ((sb : ℤ) < (sa : ℤ)) := by exact_mod_cast hng
    simp [update_elo, spec_result_a, expected_score, K, gt_iff_lt, h, hi, hng, hngi]
  · subst h
    simp [update_elo, spec_result_a, expected_score, K, gt_iff_lt, lt_irrefl]
  · have hi : (sb : ℤ) < (sa : ℤ) := by exact_mod_cast h
    have hng : ¬ (sa < sb) := by omega
    have hngi : ¬ ((sa : ℤ) < (sb : ℤ)) := by exact_mod_cast hng
    simp [update_elo, spec_result_a, expected_score, K, gt_iff_lt, h, hi, hng, hngi]

/-- Claim C3 counterexample: a prediction request naming a team absent from the
store does not create that team in the store — the store handed back by
predict_matchup still has no entry for it, contradicting the claim that the
team is created with value 1500. -/
theorem C3_prediction_creates_no_entry :
    lookup (predict_matchup (Cell.str "A") (Cell.str "B") [] noStats none).2
      (Cell.str "A") = none := rfl

/-- Claim C4: prediction is pure — calling predict_matchup twice with identical
inputs yields identical output, and the store handed back is exactly the
store passed in (no rating is mutated). -/
theorem C4_predict_pure (th ta : Cell) (elos : Elos) (stats : Stats)
    (home : Option Cell) :
    predict_matchup th ta elos stats home = predict_matchup th ta elos stats home ∧
      (predict_matchup th ta elos stats home).2 = elos :=
  ⟨rfl, rfl⟩

/-- Claim C8: for equal ratings the expected score is exactly 0.5, and a tie
outcome (equal scores) processed at equal ratings returns both ratings
exactly unchanged. -/
theorem C8_equal_ratings (r : ℝ) (s : ℤ) :
    expected_score r r = 0.5 ∧ update_elo r r s s = (r, r) := by
  refine ⟨expected_score_self r, ?_⟩
  simp only [update_elo, expected_score_self, K, gt_iff_lt, lt_irrefl, if_false]
  norm_num

/- ------------------------------------------------------------------ -/
/- Helper lemmas about the builder.                                     -/
/- ------------------------------------------------------------------ -/

theorem update_elo_1500_10 : update_elo 1500 1500 1 0 = (1510, 1490) := by
  simp only [update_elo, K, expected_score_self]
  norm_num

theorem isSome_lookup_buildStep (e : Elos) (row : Row) (k : Cell)
    (h : (lookup e k).isSome) : (lookup (buildStep e row) k).isSome := by
  rcases hr : row_to_result row with _ | ⟨w, l, sw, sl⟩
  · simpa [buildStep, hr] using h
  · simp only [buildStep, hr]
    exact isSome_lookup_setv _ _ _ _ (isSome_lookup_setv _ _ _ _
      (isSome_lookup_setdefault _ _ _ _ (isSome_lookup_setdefault _ _ _ _ h)))

theorem buildStep_outcome_mem (e : Elos) (row : Row) (w l : Cell) (sw sl : ℤ)
    (hr : row_to_result row = some (w, l, sw, sl)) :
    (lookup (buildStep e row) w).isSome ∧ (lookup (buildStep e row) l).isSome := by
  simp only [buildStep, hr]
  constructor
  · apply isSome_lookup_setv
    rw [lookup_setv_self]
    rfl
  · rw [lookup_setv_self]
    rfl

theorem isSome_lookup_foldl (rows : List Row) :
    ∀ (e : Elos) (k : Cell), (lookup e k).isSome →
      (lookup (rows.foldl buildStep e) k).isSome := by
  induction rows with
  | nil => intro e k h; simpa using h
  | cons r rest ih =>
    intro e k h
    simp only [List.foldl_cons]
    exact ih _ _ (isSome_lookup_buildStep _ _ _ h)

theorem buildStep_mass (e : Elos) (row : Row)
    (hInv : totalMass e = 1500 * (e.length : ℝ))
    (hne : ∀ w l sw sl, row_to_result row = some (w, l, sw, sl) → w ≠ l) :
    totalMass (buildStep e row) = 1500 * ((buildStep e row).length : ℝ) := by
  rcases hr : row_to_result row with _ | ⟨w, l, sw, sl⟩
  · simpa [buildStep, hr] using hInv
  · have hwl : w ≠ l := hne w l sw sl hr
    simp only [buildStep, hr]
    have inv1 := setdefault_mass e w hInv
    have inv2 := setdefault_mass (setdefault e w START_ELO) l inv1
    have hw1 : (lookup (setdefault e w START_ELO) w).isSome :=
      isSome_lookup_setdefault_self _ _ _
    have hwE : (lookup (setdefault (setdefault e w START_ELO) l START_ELO) w).isSome :=
      isSome_lookup_setdefault _ _ _ _ hw1
    have hlE : (lookup (setdefault (setdefault e w START_ELO) l START_ELO) l).isSome :=
      isSome_lookup_setdefault_self _ _ _
    obtain ⟨va, hva⟩ := Option.isSome_iff_exists.mp hwE
    obtain ⟨vb, hvb⟩ := Option.isSome_iff_exists.mp hlE
    rw [hva, hvb]
    simp only [Option.getD_some]
    have hlE' : lookup (setv (setdefault (setdefault e w START_ELO) l START_ELO) w
        (update_elo va vb sw sl).1) l = some vb := by
      rw [lookup_setv_ne _ _ _ _ (Ne.symm hwl)]
      exact hvb
    have m1 := totalMass_setv_of_lookup (setdefault (setdefault e w START_ELO) l START_ELO)
      w (update_elo va vb sw sl).1 va hva
    have m2 := totalMass_setv_of_lookup _ l (update_elo va vb sw sl).2 vb hlE'
    have l1 := length_setv_of_isSome (setdefault (setdefault e w START_ELO) l START_ELO)
      w (update_elo va vb sw sl).1 hwE
    have l2 := length_setv_of_isSome _ l (update_elo va vb sw sl).2
      (by rw [hlE']; rfl)
    have hsum := update_elo_sum va vb sw sl
    rw [m2, m1, l2, l1]
    rw [inv2] at *
    linarith

theorem build_mass_aux (rows : List Row) :
    ∀ e : Elos, totalMass e = 1500 * (e.length : ℝ) →
      (∀ r ∈ rows, ∀ w l sw sl, row_to_result r = some (w, l, sw, sl) → w ≠ l) →
      totalMass (rows.foldl buildStep e) = 1500 * ((rows.foldl buildStep e).length : ℝ) := by
  induction rows with
  | nil => intro e h _; simpa using h
  | cons r rest ih =>
    intro e h hok
    simp only [List.foldl_cons]
    exact ih _ (buildStep_mass e r h (hok r (List.mem_cons_self r rest)))
      (fun r' hr' => hok r' (List.mem_cons_of_mem _ hr'))

/-- Claim C3 amended: every team referenced by a processed Outcome exists in the
store built by build_elos, and a prediction request does not modify the
store at all — an absent team is treated as rated 1500 for the computation
only, not created. -/
theorem C3_outcome_teams_persist :
    (∀ (rows : List Row) (row : Row) (w l : Cell) (sw sl : ℤ),
      row ∈ rows → row_to_result row = some (w, l, sw, sl) →
      (lookup (build_elos rows) w).isSome ∧ (lookup (build_elos rows) l).isSome) ∧
    (∀ (th ta : Cell) (elos : Elos) (stats : Stats) (home : Option Cell),
      (predict_matchup th ta elos stats home).2 = elos) := by
  constructor
  · have main : ∀ (rows : List Row) (e : Elos) (row : Row) (w l : Cell) (sw sl : ℤ),
        row ∈ rows → row_to_result row = some (w, l, sw, sl) →
        (lookup (rows.foldl buildStep e) w).isSome ∧
          (lookup (rows.foldl buildStep e) l).isSome := by
      intro rows
      induction rows with
      | nil =>
        intro e row w l sw sl hmem
        exact absurd hmem (List.not_mem_nil row)
      | cons r rest ih =>
        intro e row w l sw sl hmem hr
        simp only [List.foldl_cons]
        rcases List.mem_cons.mp hmem with heq | hmem'
        · subst heq
          have h2 := buildStep_outcome_mem e row w l sw sl hr
          exact ⟨isSome_lookup_foldl rest _ _ h2.1, isSome_lookup_foldl rest _ _ h2.2⟩
        · exact ih (buildStep e r) row w l sw sl hmem' hr
    intro rows row w l sw sl hmem hr
    exact main rows [] row w l sw sl hmem hr
  · intro th ta elos stats home
    rfl

/-- Claim C3 witness: the Outcome teams of a concrete processed row are present
in the built store. -/
theorem C3_outcome_teams_persist_witness :
    (lookup (build_elos [winRow]) (Cell.str "A")).isSome ∧
      (lookup (build_elos [winRow]) (Cell.str "B")).isSome :=
  C3_outcome_teams_persist.1 [winRow] winRow (Cell.str "A") (Cell.str "B") 1 0
    (List.mem_singleton.mpr rfl) (by decide)

/-- Claim C9 amended: update_elo is exactly zero-sum, and the Builder preserves a
total rating mass of 1500 per store entry (one entry per distinct team ever
referenced by a processed Outcome), provided no processed Outcome names the
same team as both winner and loser. -/
theorem C9_zero_sum_and_mass :
    (∀ (a b : ℝ) (sa sb : ℤ),
      (update_elo a b sa sb).1 + (update_elo a b sa sb).2 = a + b) ∧
    (∀ rows : List Row,
      (∀ r ∈ rows, ∀ w l sw sl, row_to_result r = some (w, l, sw, sl) → w ≠ l) →
      totalMass (build_elos rows) = 1500 * ((build_elos rows).length : ℝ)) := by
  constructor
  · exact update_elo_sum
  · intro rows hok
    have h0 : totalMass ([] : Elos) = 1500 * (([] : Elos).length : ℝ) := by
      simp [totalMass]
    exact build_mass_aux rows [] h0 hok

/-- Claim C9 witness: the mass invariant at a concrete one-row history. -/
theorem C9_zero_sum_and_mass_witness :
    totalMass (build_elos [winRow]) = 1500 * ((build_elos [winRow]).length : ℝ) := by
  apply C9_zero_sum_and_mass.2 [winRow]
  intro r hr w l sw sl hres
  rw [List.mem_singleton] at hr
  subst hr
  have hknown : row_to_result winRow = some (Cell.str "A", Cell.str "B", 1, 0) := by decide
  rw [hknown] at hres
  simp only [Option.some.injEq, Prod.mk.injEq] at hres
  obtain ⟨hw, hl, _⟩ := hres
  subst hw
  subst hl
  decide

/-- Claim C9 counterexample: a Winner/Loser-family row naming the same team as
winner and loser is accepted, and processing it breaks the 1500-per-team
mass balance (the single team ends at 1490), refuting the claimed
consequence for the Builder. -/
theorem C9_mass_counterexample :
    totalMass (build_elos [selfRow]) ≠ 1500 * ((build_elos [selfRow]).length : ℝ) := by
  have hres : row_to_result selfRow = some (Cell.str "A", Cell.str "A", 1, 0) := by decide
  have hbuild : build_elos [selfRow] = [(Cell.str "A", 1490)] := by
    simp only [build_elos, List.foldl_cons, List.foldl_nil, buildStep, hres]
    norm_num [setdefault, lookup, setv, START_ELO, update_elo_1500_10]
  rw [hbuild]
  norm_num [totalMass]

/- ------------------------------------------------------------------ -/
/- Home-field bonus, normalizer rejection and default-outcome claims.  -/
/- ------------------------------------------------------------------ -/

theorem firstScores_eq_none (row : Row) (ps : List (String × String))
    (h : ∀ p ∈ ps, ¬(hasCol row p.1 = true ∧ hasCol row p.2 = true ∧
        (as_int ((colCell row p.1).getD Cell.empty)).isSome = true ∧
        (as_int ((colCell row p.2).getD Cell.empty)).isSome = true)) :
    firstScores row ps = none := by
  induction ps with
  | nil => rfl
  | cons p rest ih =>
    obtain ⟨pw, pl⟩ := p
    have hp := h (pw, pl) (List.mem_cons_self _ _)
    have hrest := fun q hq => h q (List.mem_cons_of_mem _ hq)
    by_cases hc : (hasCol row pw && hasCol row pl) = true
    · have hc2 := Bool.and_eq_true_iff.mp hc
      cases h1 : as_int ((colCell row pw).getD Cell.empty) with
      | none =>
        cases h2 : as_int ((colCell row pl).getD Cell.empty) <;>
          simp only [firstScores, hc, if_true, h1, h2, ite_true] <;>
          exact ih hrest
      | some sw =>
        cases h2 : as_int ((colCell row pl).getD Cell.empty) with
        | none =>
          simp only [firstScores, hc, if_true, h1, h2, ite_true]
          exact ih hrest
        | some sl =>
          exact absurd ⟨hc2.1, hc2.2, by rw [h1]; rfl, by rw [h2]; rfl⟩ hp
    · simp only [firstScores, hc, if_false, ite_false, Bool.false_eq_true]
      exact ih hrest

/-- Claim C5 counterexample: with an extreme point differential in the stat table
the clip saturates, and designating the home side leaves the final
probability exactly where it was (both are 1), refuting strictness for
arbitrary stat tables. -/
theorem C5_clip_saturation_counterexample :
    ¬ ((predict_matchup (Cell.str "A") (Cell.str "B") [] satStats
          (some (Cell.str "A"))).1.final_prob >
       (predict_matchup (Cell.str "A") (Cell.str "B") [] satStats
          none).1.final_prob) := by
  have key : ∀ home : Option Cell,
      (predict_matchup (Cell.str "A") (Cell.str "B") [] satStats home).1.final_prob
        = 1 := by
    intro home
    have hA : satStats (Cell.str "A") = some ⟨10000, 0, 0, 0⟩ := by
      simp [satStats]
    have hB : satStats (Cell.str "B") = some ⟨0, 0, 0, 0⟩ := by
      simp [satStats]
    have hpd : point_diff_factor (Cell.str "A") (Cell.str "B") satStats = 50.5 := by
      simp only [point_diff_factor, hA, hB, SeasonStat.point_diff]
      norm_num
    have hto : turnover_factor (Cell.str "A") (Cell.str "B") satStats = 0.5 := by
      simp only [turnover_factor, hA, hB]
      norm_num
    have hp : 0 < elo_prob_home (Cell.str "A") (Cell.str "B") [] home := by
      unfold elo_prob_home
      exact expected_score_pos _ _
    have hx : (1 : ℝ) ≤ pre_clip (Cell.str "A") (Cell.str "B") [] satStats home := by
      unfold pre_clip
      rw [hpd, hto]
      linarith
    show clip (pre_clip (Cell.str "A") (Cell.str "B") [] satStats home) 0 1 = 1
    unfold clip
    rw [max_eq_right (le_trans zero_le_one hx), min_eq_left hx]
  rw [key (some (Cell.str "A")), key none]
  exact lt_irrefl 1

/-- Claim C5 amended: whenever neither blended value saturates the [0, 1] clip
(the neutral blend is at least 0 and the designated-home blend is at most 1),
designating the home-slot side as home yields a strictly greater final
probability than a neutral-site prediction, all else equal. The function
returns the home-slot side's probability, so the designated side here is the
home slot. -/
theorem C5_home_designation_increases (th ta : Cell) (elos : Elos) (stats : Stats)
    (h0 : 0 ≤ pre_clip th ta elos stats none)
    (h1 : pre_clip th ta elos stats (some th) ≤ 1) :
    (predict_matchup th ta elos stats none).1.final_prob <
      (predict_matchup th ta elos stats (some th)).1.final_prob := by
  have hmono : elo_prob_home th ta elos none < elo_prob_home th ta elos (some th) := by
    unfold elo_prob_home effective_elos
    simp only [reduceCtorEq, if_false, ite_false, eq_self_iff_true, if_true, ite_true]
    exact expected_score_lt_left _
      (lt_add_of_pos_right _ (by norm_num [HOME_FIELD_BONUS]))
  have hpre : pre_clip th ta elos stats none < pre_clip th ta elos stats (some th) := by
    unfold pre_clip
    linarith
  show clip (pre_clip th ta elos stats none) 0 1 <
    clip (pre_clip th ta elos stats (some th)) 0 1
  unfold clip
  rw [max_eq_right h0, max_eq_right (le_of_lt (lt_of_le_of_lt h0 hpre)),
    min_eq_right (le_of_lt (lt_of_lt_of_le hpre h1)), min_eq_right h1]
  exact hpre

/-- Claim C5 witness: at default ratings with no stats, designating the home slot
strictly raises the final probability. -/
theorem C5_home_designation_increases_witness :
    (predict_matchup (Cell.str "A") (Cell.str "B") [] noStats none).1.final_prob <
      (predict_matchup (Cell.str "A") (Cell.str "B") [] noStats
        (some (Cell.str "A"))).1.final_prob := by
  apply C5_home_designation_increases
  · have hp : 0 < elo_prob_home (Cell.str "A") (Cell.str "B") [] none := by
      unfold elo_prob_home
      exact expected_score_pos _ _
    have hpd : point_diff_factor (Cell.str "A") (Cell.str "B") noStats = 0.5 := rfl
    have hto : turnover_factor (Cell.str "A") (Cell.str "B") noStats = 0.5 := rfl
    unfold pre_clip
    rw [hpd, hto]
    linarith
  · have hp : elo_prob_home (Cell.str "A") (Cell.str "B") [] (some (Cell.str "A")) < 1 := by
      unfold elo_prob_home
      exact expected_score_lt_one _ _
    have hpd : point_diff_factor (Cell.str "A") (Cell.str "B") noStats = 0.5 := rfl
    have hto : turnover_factor (Cell.str "A") (Cell.str "B") noStats = 0.5 := rfl
    unfold pre_clip
    rw [hpd, hto]
    linarith

/-- Claim C6: a Winner/Loser-family row naming winner A and loser B with no
recognized score-column pair present is accepted as the canonical Outcome
(A, B, 1, 0), and folding that Outcome through the Engine from two ratings
of 1500 moves each rating by exactly K × (1 − 0.5) = 10, up for A and down
for B. -/
theorem C6_default_win_outcome (row : Row) (A B : Cell)
    (hw : colCell row "winner/tie" = some A)
    (hl : colCell row "loser/tie" = some B)
    (h1 : (hasCol row "Points_Winner" && hasCol row "Points_Loser") = false)
    (h2 : (hasCol row "PtsW" && hasCol row "PtsL") = false)
    (h3 : (hasCol row "Pts" && hasCol row "Pts.1") = false) :
    row_to_result row = some (A, B, 1, 0) ∧
      update_elo START_ELO START_ELO 1 0 = (START_ELO + 10, START_ELO - 10) := by
  have hfs : firstScores row scorePairs = none := by
    simp [scorePairs, firstScores, h1, h2, h3]
  have hwb : hasCol row "winner/tie" = true := by
    simp [hasCol, hw]
  have hlb : hasCol row "loser/tie" = true := by
    simp [hasCol, hl]
  refine ⟨?_, update_elo_win10⟩
  simp only [row_to_result, hwb, hlb, Bool.and_self, if_true, ite_true, hfs, hw, hl,
    Option.getD_some]

/-- Claim C6 witness: the concrete scoreless Winner/Loser row. -/
theorem C6_default_win_outcome_witness :
    row_to_result winRow = some (Cell.str "A", Cell.str "B", 1, 0) :=
  (C6_default_win_outcome winRow (Cell.str "A") (Cell.str "B")
    (by decide) (by decide) (by decide) (by decide) (by decide)).1

/-- Claim C7: a Home/Away-family row whose home score or away score is missing or
unparseable is rejected: no Outcome is produced, the store is unchanged, and
the Builder continues with the remaining rows without any error. -/
theorem C7_missing_score_rejected (row : Row) (rest : List Row) (elos : Elos)
    (hWL : (hasCol row "winner/tie" && hasCol row "loser/tie") = false)
    (hHA : (hasCol row "home_team" && hasCol row "away_team") = true)
    (hs : homeScoreOf row = none ∨ awayScoreOf row = none) :
    row_to_result row = none ∧ buildStep elos row = elos ∧
      build_elos (row :: rest) = build_elos rest := by
  have hr : row_to_result row = none := by
    rcases hs with h | h
    · simp [row_to_result, hWL, hHA, h]
    · cases hh : homeScoreOf row <;> simp [row_to_result, hWL, hHA, h, hh]
  refine ⟨hr, ?_, ?_⟩
  · simp [buildStep, hr]
  · simp [build_elos, List.foldl_cons, buildStep, hr]

/-- Claim C7 witness: concrete Home/Away row with an unparseable home score and a
missing away-score column. -/
theorem C7_missing_score_rejected_witness :
    row_to_result badHomeAwayRow = none :=
  (C7_missing_score_rejected badHomeAwayRow [] [] (by decide) (by decide)
    (Or.inr (by decide))).1

/-- Claim C10: a Winner/Loser-family row is never rejected — an Outcome is always
produced, and when no recognized score pair is present-and-parseable the
default 1–0 Outcome for the named winner and loser is produced. -/
theorem C10_winner_loser_never_rejected (row : Row)
    (hw : hasCol row "winner/tie" = true) (hl : hasCol row "loser/tie" = true) :
    (row_to_result row).isSome = true ∧
      ((∀ p ∈ scorePairs, ¬(hasCol row p.1 = true ∧ hasCol row p.2 = true ∧
          (as_int ((colCell row p.1).getD Cell.empty)).isSome = true ∧
          (as_int ((colCell row p.2).getD Cell.empty)).isSome = true)) →
        row_to_result row =
          some ((colCell row "winner/tie").getD Cell.empty,
                (colCell row "loser/tie").getD Cell.empty, 1, 0)) := by
  constructor
  · cases hfs : firstScores row scorePairs with
    | none => simp only [row_to_result, hw, hl, Bool.and_self, if_true, ite_true, hfs,
        Option.isSome_some]
    | some p =>
      obtain ⟨sw, sl⟩ := p
      simp only [row_to_result, hw, hl, Bool.and_self, if_true, ite_true, hfs,
        Option.isSome_some]
  · intro hfail
    have hfs : firstScores row scorePairs = none := firstScores_eq_none row scorePairs hfail
    simp only [row_to_result, hw, hl, Bool.and_self, if_true, ite_true, hfs]

/-- Claim C10 witness: a Winner/Loser row whose only present score pair is
unparseable still yields the default 1–0 Outcome. -/
theorem C10_winner_loser_never_rejected_witness :
    row_to_result badScoreRow =
      some ((colCell badScoreRow "winner/tie").getD Cell.empty,
            (colCell badScoreRow "loser/tie").getD Cell.empty, 1, 0) :=
  (C10_winner_loser_never_rejected badScoreRow (by decide) (by decide)).2 (by decide)

end EloPredictor
